import Mathlib

/-!
Shallow embedding of the recommendation/similarity core of the
show-suggester application (`src/app.js`): catalog items, the judgment
store, the similarity engine, the recommendation generator, the batch
sampler and the export projection, together with theorems settling the
specification claims about them.

Numbers: the JS code computes scores with ordinary arithmetic on small
rationals (weights 5, 3, 2, 1, the 0.7/0.3 blend, division by 11 and by
100); we embed them in `ℚ`.  Years and runtimes are integers-or-absent
(`Option Int`); JS truthiness tests (`if (film.year && liked.year)`)
are embedded explicitly, so `0` is "falsy" exactly as in the source.
-/

set_option maxRecDepth 10000

namespace ShowSuggester

/-- Catalog item (a film), as used by the scoring, batching and export
code of `app.js`. -/
structure Film where
  qid : String
  title : String
  year : Option Int
  genres : List String
  directorQIDs : List String
  castQIDs : List String
  imdbId : Option String
  runtime : Option Int
  source : String
deriving DecidableEq, Repr

/-- One judgment record as stored in `this.ratings[qid]` by `rateFilm`. -/
structure Rating where
  qid : String
  rating : String
  note : String
  tags : List String
  timestamp : String
deriving DecidableEq, Repr

/-- The judgment store `this.ratings`: a JS object keyed by item id,
embedded as an association list in insertion order (JS objects preserve
insertion order of string keys; assigning to an existing key replaces
the value in place). -/
abbrev Ratings := List (String × Rating)

/-- Lookup `this.ratings[qid]` (first matching key). -/
def lookupRating (m : Ratings) (qid : String) : Option Rating :=
  List.lookup qid m

/-- JS truthiness of an optional integer field: `undefined`/`null` and
`0` are falsy, every other number is truthy. -/
def jsTruthyInt : Option Int → Bool
  | none => false
  | some v => v != 0

/-- From `app.js` `jaccardSimilarity(setA, setB)`: `0` when both sets
are empty, else `|A ∩ B| / |A ∪ B|`. -/
def jaccardSimilarity (a b : Finset String) : ℚ :=
  if a.card = 0 ∧ b.card = 0 then 0
  else ((a ∩ b).card : ℚ) / ((a ∪ b).card : ℚ)

/-- The per-pair score computed inside `calculateSimilarity`'s
`likedFilms.map(...)` lambda: genre Jaccard (weight 5), binary director
match (weight 3), cast Jaccard (weight 2), and year proximity
`max(0, 1 - |Δyear|/100)` (weight 1) guarded by JS truthiness of both
year fields. -/
def pairScore (film liked : Film) : ℚ :=
  let genreOverlap := jaccardSimilarity film.genres.toFinset liked.genres.toFinset
  let directorMatch : ℚ :=
    if film.directorQIDs.any (fun d => liked.directorQIDs.contains d) then 1 else 0
  let castOverlap := jaccardSimilarity film.castQIDs.toFinset liked.castQIDs.toFinset
  let score := genreOverlap * 5 + directorMatch * 3 + castOverlap * 2
  if jsTruthyInt film.year && jsTruthyInt liked.year then
    score + max 0 (1 - |((film.year.getD 0 : Int) : ℚ) - ((liked.year.getD 0 : Int) : ℚ)| / 100) * 1
  else score

/-- `Math.max(...scores)` on a non-empty spread (the empty case is
guarded in `calculateSimilarity`). -/
def listMax : List ℚ → ℚ
  | [] => 0
  | x :: xs => xs.foldl max x

/-- From `app.js` `calculateSimilarity(film, likedFilms)`: per-liked
scores, then the blend `(max * 0.7 + avg * 0.3) / 11.0`. -/
def calculateSimilarity (film : Film) (likedFilms : List Film) : ℚ :=
  if likedFilms.isEmpty then 0
  else
    let scores := likedFilms.map (fun liked => pairScore film liked)
    let maxScore := listMax scores
    let avgScore := scores.foldl (· + ·) 0 / (scores.length : ℚ)
    (maxScore * (7/10) + avgScore * (3/10)) / 11

/-- Written from the spec's words (§4.1), for comparison with the
code's `pairScore`: weighted sum `5·jaccard(genres) + 3·[creator sets
intersect] + 2·jaccard(cast) + 1·max(0, 1 - |Δyear|/100)`, the year
term contributing 0 when either year is absent. -/
def specPairScore (a b : Film) : ℚ :=
  let genreTerm := jaccardSimilarity a.genres.toFinset b.genres.toFinset
  let creatorTerm : ℚ :=
    if (a.directorQIDs.toFinset ∩ b.directorQIDs.toFinset).Nonempty then 1 else 0
  let castTerm := jaccardSimilarity a.castQIDs.toFinset b.castQIDs.toFinset
  let yearTerm : ℚ :=
    match a.year, b.year with
    | some ya, some yb => max 0 (1 - |((ya : ℚ)) - ((yb : ℚ))| / 100)
    | _, _ => 0
  5 * genreTerm + 3 * creatorTerm + 2 * castTerm + 1 * yearTerm

/-- Written from the spec's words, amended where the code diverges: the
year term also contributes 0 when either year equals 0, because the
source tests the year fields for JS truthiness. -/
def specPairScoreAmended (a b : Film) : ℚ :=
  let genreTerm := jaccardSimilarity a.genres.toFinset b.genres.toFinset
  let creatorTerm : ℚ :=
    if (a.directorQIDs.toFinset ∩ b.directorQIDs.toFinset).Nonempty then 1 else 0
  let castTerm := jaccardSimilarity a.castQIDs.toFinset b.castQIDs.toFinset
  let yearTerm : ℚ :=
    match a.year, b.year with
    | some ya, some yb =>
        if ya ≠ 0 ∧ yb ≠ 0 then max 0 (1 - |((ya : ℚ)) - ((yb : ℚ))| / 100) else 0
    | _, _ => 0
  5 * genreTerm + 3 * creatorTerm + 2 * castTerm + 1 * yearTerm

/-- The judgment-store mutation inside `rateFilm(qid, rating)`:
`this.ratings[qid] = {qid, rating, note, tags, timestamp}`.  On a JS
object this replaces the value in place when the key already exists and
appends the key otherwise; the UI extraction of `note`/`tags` and the
re-rendering are outside the core.  The ambient `new Date()` timestamp
is passed explicitly. -/
def rateFilm (qid : String) (rating note : String) (tags : List String)
    (timestamp : String) (m : Ratings) : Ratings :=
  let r : Rating := { qid := qid, rating := rating, note := note, tags := tags,
                      timestamp := timestamp }
  if (List.any m fun p => p.1 == qid) then
    List.map (fun p => if p.1 == qid then (qid, r) else p) m
  else m ++ [(qid, r)]

/-- Whether a stored judgment (if any) is a like:
`this.ratings[f.qid]?.rating === 'like'`. -/
def isLikeJudgment (o : Option Rating) : Bool :=
  match o with
  | some r => r.rating == "like"
  | none => false

/-- Year-filter predicate applied to recommendation candidates
(`f.year && f.year >= currentYear - 20`, and the last-2-years variant);
the first conjunct is a JS truthiness test. -/
def yearFilterKeep (yearFilter : String) (currentYear : Int) (f : Film) : Bool :=
  if yearFilter == "last20" then
    jsTruthyInt f.year && decide (f.year.getD 0 ≥ currentYear - 20)
  else if yearFilter == "last2" then
    jsTruthyInt f.year && decide (f.year.getD 0 ≥ currentYear - 2)
  else true

/-- Runtime-filter predicate applied to recommendation candidates
(`f.runtime && f.runtime < 90`, etc.); the first conjunct is a JS
truthiness test. -/
def runtimeFilterKeep (runtimeFilter : String) (f : Film) : Bool :=
  if runtimeFilter == "short" then
    jsTruthyInt f.runtime && decide (f.runtime.getD 0 < 90)
  else if runtimeFilter == "medium" then
    jsTruthyInt f.runtime && decide (f.runtime.getD 0 ≥ 90) && decide (f.runtime.getD 0 ≤ 150)
  else if runtimeFilter == "long" then
    jsTruthyInt f.runtime && decide (f.runtime.getD 0 > 150)
  else true

/-- Descending-score ordering used by
`scoredFilms.sort((a, b) => b.score - a.score)`: `a` may precede `b`
exactly when the comparator is `≤ 0`, i.e. `b.score ≤ a.score`.  JS
`Array.prototype.sort` is a stable sort, embedded as `List.mergeSort`
with this relation. -/
def scoreDescLE (a b : Film × ℚ) : Bool :=
  decide (b.2 ≤ a.2)

/-- From `app.js` `generateRecommendations()`: liked films, early empty
return, unjudged candidates, the year/runtime recommendation filters
(state fields defaulting to `"all"`; `currentYear` is the ambient
`new Date().getFullYear()`), per-candidate aggregate scores, stable
descending sort, top 20. -/
def generateRecommendations (films : List Film) (ratings : Ratings)
    (yearFilter runtimeFilter : String) (currentYear : Int) : List (Film × ℚ) :=
  let likedFilms := films.filter (fun f => isLikeJudgment (lookupRating ratings f.qid))
  if likedFilms.isEmpty then []
  else
    let unratedFilms := films.filter (fun f => (lookupRating ratings f.qid).isNone)
    let unratedFilms := unratedFilms.filter (yearFilterKeep yearFilter currentYear)
    let unratedFilms := unratedFilms.filter (runtimeFilterKeep runtimeFilter)
    let scoredFilms := unratedFilms.map (fun film => (film, calculateSimilarity film likedFilms))
    (scoredFilms.mergeSort scoreDescLE).take 20

/-- Swap the entries at positions `i` and `j` (the body of one
Fisher–Yates iteration, `[a[i], a[j]] = [a[j], a[i]]`); out-of-range
indices leave the list unchanged (never reached by the shuffle). -/
def listSwap {α : Type} (l : List α) (i j : Nat) : List α :=
  if h : i < l.length ∧ j < l.length then
    (l.set i (l.get ⟨j, h.2⟩)).set j (l.get ⟨i, h.1⟩)
  else l

/-- The loop of `shuffleArray`, from `i = length - 1` down to `1`:
`j = Math.floor(Math.random() * (i + 1))` is a uniformly chosen index
in `[0, i]`, supplied here by the oracle `rand` (reduced mod `i + 1` so
every in-range draw is representable and nothing else is). -/
def fisherYatesAux {α : Type} (rand : Nat → Nat) : Nat → List α → List α
  | 0, l => l
  | i + 1, l => fisherYatesAux rand i (listSwap l (i + 1) (rand (i + 1) % (i + 2)))

/-- From `app.js` `shuffleArray(array)`: copy, then in-place
Fisher–Yates on the copy; the randomness source is explicit. -/
def shuffleArray {α : Type} (rand : Nat → Nat) (l : List α) : List α :=
  fisherYatesAux rand (l.length - 1) l

/-- The `famousFilmTitles` list hard-coded in `getStarterBatch`. -/
def famousFilmTitles : List String :=
  ["The Shawshank Redemption", "The Godfather", "The Dark Knight", "Pulp Fiction",
   "Forrest Gump", "Inception", "Interstellar", "The Matrix", "Titanic", "Avatar",
   "Jaws", "E.T.", "Back to the Future", "The Avengers", "Star Wars", "Raiders of the Lost Ark",
   "Jurassic Park", "The Sixth Sense", "Fight Club", "Gladiator", "The Lion King", "Frozen",
   "Toy Story", "Coco", "The Sound of Music", "Singin\x27 in the Rain", "Breakfast at Tiffany\x27s",
   "Casablanca", "It\x27s a Wonderful Life", "Gone with the Wind", "Citizen Kane",
   "The Silence of the Lambs", "Jigsaw", "Se7en", "The Ring", "Nightmare on Elm Street",
   "Alien", "The Terminator", "RoboCop", "Total Recall", "Predator",
   "Schindler\x27s List", "Saving Private Ryan", "Oppenheimer", "The Pianist", "Sophie\x27s Choice",
   "Amélie", "Pan\x27s Labyrinth", "Parasite", "Everything Everywhere All at Once", "Crouching Tiger Hidden Dragon",
   "Eternal Sunshine of the Spotless Mind", "The Truman Show", "Groundhog Day", "When Harry Met Sally", "Roman Holiday",
   "Audrey Hepburn", "Breakfast at Tiffany\x27s", "La La Land", "Mamma Mia", "Hairspray",
   "The Notebook", "Pride and Prejudice", "Sense and Sensibility", "The Time Traveler\x27s Wife", "About Time",
   "Dune", "Blade Runner", "The Fifth Element", "Twisters", "Top Gun",
   "Barbie", "Oppenheimer", "Past Lives", "Poor Things", "American Fiction",
   "Killers of the Flower Moon", "The Iron Claw", "Anatomy of a Fall", "Asteroid City", "The Brutalist"]

/-- JS `String.prototype.toLowerCase`, embedded character-wise. -/
def jsToLowerCase (s : String) : String :=
  String.mk (s.data.map Char.toLower)

/-- JS `a.includes(b)`: `b` occurs as a contiguous substring of `a`. -/
def jsIncludes (s sub : String) : Bool :=
  decide (sub.data <:+: s.data)

/-- The case-insensitive two-way substring match of `getStarterBatch`. -/
def titleMatches (film : Film) : Bool :=
  famousFilmTitles.any fun title =>
    jsIncludes (jsToLowerCase film.title) (jsToLowerCase title) ||
    jsIncludes (jsToLowerCase title) (jsToLowerCase film.title)

/-- The `sourceScore` table of `getStarterBatch`'s fallback comparator
(`?? 5` for unknown sources). -/
def sourceScore (s : String) : Int :=
  if s == "oscars" then 0
  else if s == "afi-classics" then 1
  else if s == "popular" then 2
  else if s == "recent" then 3
  else if s == "bechdel" then 4
  else 5

/-- The fallback comparator of `getStarterBatch` (source provenance,
then the pre/post-1980 year rules, with `a.year || 0`). -/
def starterCmp (a b : Film) : Int :=
  let scoreA := sourceScore a.source
  let scoreB := sourceScore b.source
  if scoreA ≠ scoreB then scoreA - scoreB
  else
    let yearA := a.year.getD 0
    let yearB := b.year.getD 0
    if yearA < 1980 ∧ yearB ≥ 1980 then -1
    else if yearA ≥ 1980 ∧ yearB < 1980 then 1
    else yearB - yearA

/-- From `app.js` `getStarterBatch(unrated)`: famous-title matches if at
least 10 were found, otherwise the stable comparator sort of all
unrated films. -/
def getStarterBatch (unrated : List Film) : List Film :=
  let starterFilms := unrated.filter titleMatches
  if starterFilms.length ≥ 10 then starterFilms
  else unrated.mergeSort (fun a b => decide (starterCmp a b ≤ 0))

/-- Sampler state carried across `loadNewBatch` calls: the batch
counter and the `recentlyShownQIDs` set (a JS `Set`, embedded as its
insertion-order list of distinct elements). -/
structure BatchState where
  batchNumber : Nat
  recentlyShown : List String
deriving DecidableEq, Repr

/-- JS `Set.prototype.add`: no-op when present, else append (insertion
order preserved). -/
def setAdd (s : List String) (x : String) : List String :=
  if s.contains x then s else s ++ [x]

/-- Result of one `loadNewBatch` call: the new `currentBatch` and the
updated sampler state. -/
structure BatchResult where
  batch : List Film
  state : BatchState
deriving DecidableEq, Repr

/-- Candidate selection of `loadNewBatch`, together with the
recently-shown base set kept for after the draw: starter batch on
batch 0; otherwise filter out recently shown films, reset the
recently-shown set when fewer than 20 candidates remain while at least
20 films are still unrated, and fall back to all unrated films if the
candidate list is empty. -/
def batchCandidates (unrated : List Film) (st : BatchState) : List Film × List String :=
  if st.batchNumber = 0 then (getStarterBatch unrated, st.recentlyShown)
  else
    let c := unrated.filter (fun f => !(st.recentlyShown.contains f.qid))
    let cr1 : List Film × List String :=
      if c.length < 20 ∧ unrated.length ≥ 20 then (unrated, [])
      else (c, st.recentlyShown)
    if cr1.1.isEmpty then (unrated, cr1.2) else cr1

/-- From `app.js` `loadNewBatch()`: unrated films; empty pool returns
with no state change; candidate selection as in `batchCandidates`; a
random batch size in `[15, 20]` (`sizeRand` supplies
`Math.floor(Math.random() * 6)`, reduced mod 6); shuffle and take; add
the batch to `recentlyShownQIDs` and trim that set to its last 50
entries once it exceeds 100. -/
def loadNewBatch (films : List Film) (ratings : Ratings) (st : BatchState)
    (sizeRand : Nat) (shuffleRand : Nat → Nat) : BatchResult :=
  let unrated := films.filter (fun f => (lookupRating ratings f.qid).isNone)
  if unrated.isEmpty then { batch := [], state := st }
  else
    let cr := batchCandidates unrated st
    let candidates := cr.1
    let batchSize := min (sizeRand % 6 + 15) candidates.length
    let batch := (shuffleArray shuffleRand candidates).take batchSize
    let recent1 := batch.foldl (fun s f => setAdd s f.qid) cr.2
    let recent2 := if recent1.length > 100 then recent1.drop (recent1.length - 50) else recent1
    { batch := batch
    , state := { batchNumber := st.batchNumber + 1, recentlyShown := recent2 } }

/-- One entry of the export projection built by `buildExportData`:
title, year, external id, verdict, note and tags — no timestamp. -/
structure ExportEntry where
  title : String
  year : Option Int
  imdbId : String
  rating : String
  note : String
  tags : List String
deriving DecidableEq, Repr

/-- The per-judgment record `filmData` of `buildExportData`
(`imdbId: film.imdbId || ''`). -/
def mkExportEntry (film : Film) (r : Rating) : ExportEntry :=
  { title := film.title, year := film.year, imdbId := film.imdbId.getD "",
    rating := r.rating, note := r.note, tags := r.tags }

/-- From `app.js` `buildExportData()` (the liked/disliked/neutral
grouping pass): iterate `Object.values(this.ratings)` in insertion
order, skip judgments whose film is missing from the catalog, and push
each remaining entry onto the list selected by its verdict. -/
def buildExportData (films : List Film) (ratings : Ratings) :
    List ExportEntry × List ExportEntry × List ExportEntry :=
  (ratings.map Prod.snd).foldl
    (fun acc r =>
      match films.find? (fun f => f.qid == r.qid) with
      | none => acc
      | some film =>
        let e := mkExportEntry film r
        if r.rating == "like" then (acc.1 ++ [e], acc.2.1, acc.2.2)
        else if r.rating == "dislike" then (acc.1, acc.2.1 ++ [e], acc.2.2)
        else (acc.1, acc.2.1, acc.2.2 ++ [e]))
    ([], [], [])

/-- Update only the internal timestamp of every stored judgment (used
to state that the export projection ignores `recordedAt`). -/
def mapTimestamps (g : String → String) (m : Ratings) : Ratings :=
  m.map (fun p => (p.1, { p.2 with timestamp := g p.2.timestamp }))

/-- Written from the spec's words (§6 export projection): the judgments
whose verdict passes `keep` and whose item id matches a current catalog
item, projected to `{title, year, externalId, verdict, note, tags}` in
judgment-store order; judgments with no matching item are skipped. -/
def exportEntriesFor (films : List Film) (keep : String → Bool) (rs : List Rating) :
    List ExportEntry :=
  rs.filterMap fun r =>
    if keep r.rating then (films.find? fun f => f.qid == r.qid).map (fun f => mkExportEntry f r)
    else none

/-- Verdict selector for the liked export list. -/
def keepLike (s : String) : Bool := s == "like"

/-- Verdict selector for the disliked export list. -/
def keepDislike (s : String) : Bool := s == "dislike"

/-- Verdict selector for the neutral export list (the `else` branch of
the grouping). -/
def keepNeutral (s : String) : Bool := !(s == "like") && !(s == "dislike")

/-! ### Concrete fixtures used by witnesses and counterexamples -/

/-- A minimal film with only identity and year set. -/
def mkTestFilm (q : String) (y : Option Int) (g : List String) : Film :=
  { qid := q, title := q, year := y, genres := g, directorQIDs := [], castQIDs := [],
    imdbId := none, runtime := none, source := "popular" }

/-- Fixture: the drama/thriller film of the spec's scenario 1. -/
def filmA : Film := mkTestFilm "A" (some 2019) ["drama", "thriller"]

/-- Fixture: the drama film of the spec's scenario 1. -/
def filmB : Film := mkTestFilm "B" (some 2020) ["drama"]

/-- Fixture: the comedy film of the spec's scenario 1. -/
def filmC : Film := mkTestFilm "C" (some 1950) ["comedy"]

/-- Fixture: a like judgment on film A. -/
def likeA : Rating := { qid := "A", rating := "like", note := "", tags := [], timestamp := "t0" }

/-- Fixture: a dislike judgment on film A. -/
def dislikeA : Rating :=
  { qid := "A", rating := "dislike", note := "meh", tags := [], timestamp := "t1" }

/-- Fixture: a neutral judgment on an item absent from the catalog. -/
def neutralZ : Rating :=
  { qid := "Zmissing", rating := "neutral", note := "", tags := [], timestamp := "t2" }

/-- Fixture: sampler state on its second batch with nothing recently
shown. -/
def stateBatchOne : BatchState := { batchNumber := 1, recentlyShown := [] }

/-- Fixture: a film whose stored year is the integer 0. -/
def filmYearZero : Film := mkTestFilm "Z0" (some 0) []

/-- Fixture: a film from year 50, within 100 years of year 0. -/
def filmYearFifty : Film := mkTestFilm "Y50" (some 50) []

/-- Fixture: a 20-film catalog for exercising the batch-sampler reset
rule. -/
def films20 : List Film :=
  [mkTestFilm "q01" (some 2001) [], mkTestFilm "q02" (some 2002) [],
   mkTestFilm "q03" (some 2003) [], mkTestFilm "q04" (some 2004) [],
   mkTestFilm "q05" (some 2005) [], mkTestFilm "q06" (some 2006) [],
   mkTestFilm "q07" (some 2007) [], mkTestFilm "q08" (some 2008) [],
   mkTestFilm "q09" (some 2009) [], mkTestFilm "q10" (some 2010) [],
   mkTestFilm "q11" (some 2011) [], mkTestFilm "q12" (some 2012) [],
   mkTestFilm "q13" (some 2013) [], mkTestFilm "q14" (some 2014) [],
   mkTestFilm "q15" (some 2015) [], mkTestFilm "q16" (some 2016) [],
   mkTestFilm "q17" (some 2017) [], mkTestFilm "q18" (some 2018) [],
   mkTestFilm "q19" (some 2019) [], mkTestFilm "q20" (some 2020) []]

/-- Fixture: a sampler state that has recently shown all of `films20`. -/
def stateAllShown : BatchState :=
  { batchNumber := 1,
    recentlyShown := ["q01", "q02", "q03", "q04", "q05", "q06", "q07", "q08", "q09", "q10",
                      "q11", "q12", "q13", "q14", "q15", "q16", "q17", "q18", "q19", "q20"] }

/-! ### Basic lemmas about the similarity engine -/

theorem jaccardSimilarity_nonneg (a b : Finset String) : 0 ≤ jaccardSimilarity a b := by
  unfold jaccardSimilarity
  split
  · exact le_refl 0
  · positivity

theorem jaccardSimilarity_le_one (a b : Finset String) : jaccardSimilarity a b ≤ 1 := by
  unfold jaccardSimilarity
  split
  · exact zero_le_one
  case isFalse h =>
    have hsub : (a ∩ b) ⊆ (a ∪ b) := (Finset.inter_subset_left).trans Finset.subset_union_left
    have hcard : (a ∩ b).card ≤ (a ∪ b).card := Finset.card_le_card hsub
    have hpos : (0 : ℚ) < ((a ∪ b).card : ℚ) := by
      have : (a ∪ b).card ≠ 0 := by
        intro hz
        rcases Finset.card_eq_zero.mp hz with hz'
        apply h
        constructor
        · exact Finset.card_eq_zero.mpr (Finset.union_eq_empty.mp hz').1
        · exact Finset.card_eq_zero.mpr (Finset.union_eq_empty.mp hz').2
      exact_mod_cast Nat.pos_of_ne_zero this
    rw [div_le_one hpos]
    exact_mod_cast hcard

theorem jaccardSimilarity_comm (a b : Finset String) :
    jaccardSimilarity a b = jaccardSimilarity b a := by
  unfold jaccardSimilarity
  rw [Finset.inter_comm, Finset.union_comm]
  exact if_congr and_comm rfl rfl

theorem pairScore_nonneg (a b : Film) : 0 ≤ pairScore a b := by
  unfold pairScore
  have hg := jaccardSimilarity_nonneg a.genres.toFinset b.genres.toFinset
  have hc := jaccardSimilarity_nonneg a.castQIDs.toFinset b.castQIDs.toFinset
  have hd : (0 : ℚ) ≤ (if a.directorQIDs.any (fun d => b.directorQIDs.contains d) then (1 : ℚ) else 0) := by
    split <;> norm_num
  have hy : (0 : ℚ) ≤ max 0 (1 - |((a.year.getD 0 : Int) : ℚ) - ((b.year.getD 0 : Int) : ℚ)| / 100) :=
    le_max_left 0 _
  simp only
  split <;> split <;> nlinarith

theorem pairScore_le_eleven (a b : Film) : pairScore a b ≤ 11 := by
  unfold pairScore
  have hg := jaccardSimilarity_le_one a.genres.toFinset b.genres.toFinset
  have hc := jaccardSimilarity_le_one a.castQIDs.toFinset b.castQIDs.toFinset
  have hg0 := jaccardSimilarity_nonneg a.genres.toFinset b.genres.toFinset
  have hc0 := jaccardSimilarity_nonneg a.castQIDs.toFinset b.castQIDs.toFinset
  have hd : (if a.directorQIDs.any (fun d => b.directorQIDs.contains d) then (1 : ℚ) else 0) ≤ 1 := by
    split <;> norm_num
  have hy : max 0 (1 - |((a.year.getD 0 : Int) : ℚ) - ((b.year.getD 0 : Int) : ℚ)| / 100) ≤ 1 := by
    apply max_le
    · norm_num
    · have : (0 : ℚ) ≤ |((a.year.getD 0 : Int) : ℚ) - ((b.year.getD 0 : Int) : ℚ)| := abs_nonneg _
      linarith
  simp only
  split <;> split <;> nlinarith

theorem foldl_max_le (l : List ℚ) (a c : ℚ) (ha : a ≤ c) (hl : ∀ x ∈ l, x ≤ c) :
    l.foldl max a ≤ c := by
  induction l generalizing a with
  | nil => simpa using ha
  | cons x xs ih =>
    simp only [List.foldl_cons]
    apply ih
    · exact max_le ha (hl x (by simp))
    · intro y hy
      exact hl y (by simp [hy])

theorem le_foldl_max (l : List ℚ) (a : ℚ) : a ≤ l.foldl max a := by
  induction l generalizing a with
  | nil => simp
  | cons x xs ih =>
    simp only [List.foldl_cons]
    exact le_trans (le_max_left a x) (ih (max a x))

theorem listMax_le (l : List ℚ) (c : ℚ) (hc : 0 ≤ c) (hl : ∀ x ∈ l, x ≤ c) :
    listMax l ≤ c := by
  cases l with
  | nil => simpa [listMax] using hc
  | cons x xs =>
    exact foldl_max_le xs x c (hl x (by simp)) (fun y hy => hl y (by simp [hy]))

theorem listMax_nonneg (l : List ℚ) (hl : ∀ x ∈ l, 0 ≤ x) : 0 ≤ listMax l := by
  cases l with
  | nil => simp [listMax]
  | cons x xs =>
    exact le_trans (hl x (by simp)) (le_foldl_max xs x)

theorem foldl_add_eq_sum (l : List ℚ) (a : ℚ) : l.foldl (· + ·) a = a + l.sum := by
  induction l generalizing a with
  | nil => simp
  | cons x xs ih =>
    simp only [List.foldl_cons, List.sum_cons, ih (a + x)]
    ring

theorem calculateSimilarity_nonneg (f : Film) (liked : List Film) :
    0 ≤ calculateSimilarity f liked := by
  unfold calculateSimilarity
  split
  · exact le_refl 0
  case isFalse h =>
    simp only
    have hmax : 0 ≤ listMax (liked.map fun l => pairScore f l) := by
      apply listMax_nonneg
      intro x hx
      rcases List.mem_map.mp hx with ⟨l, _, rfl⟩
      exact pairScore_nonneg f l
    have hsum : 0 ≤ (liked.map fun l => pairScore f l).sum := by
      apply List.sum_nonneg
      intro x hx
      rcases List.mem_map.mp hx with ⟨l, _, rfl⟩
      exact pairScore_nonneg f l
    rw [foldl_add_eq_sum]
    have hlen : (0 : ℚ) ≤ ((liked.map fun l => pairScore f l).length : ℚ) := by positivity
    positivity

theorem calculateSimilarity_le_one (f : Film) (liked : List Film) :
    calculateSimilarity f liked ≤ 1 := by
  unfold calculateSimilarity
  split
  · exact zero_le_one
  case isFalse h =>
    simp only
    rw [foldl_add_eq_sum, zero_add]
    have hne : liked ≠ [] := by
      intro hnil
      rw [hnil] at h
      simp at h
    have hlenpos : (0 : ℚ) < ((liked.map fun l => pairScore f l).length : ℚ) := by
      have : 0 < liked.length := List.length_pos.mpr hne
      simp only [List.length_map]
      exact_mod_cast this
    have hmax : listMax (liked.map fun l => pairScore f l) ≤ 11 := by
      apply listMax_le _ _ (by norm_num)
      intro x hx
      rcases List.mem_map.mp hx with ⟨l, _, rfl⟩
      exact pairScore_le_eleven f l
    have havg : (liked.map fun l => pairScore f l).sum / ((liked.map fun l => pairScore f l).length : ℚ) ≤ 11 := by
      rw [div_le_iff₀ hlenpos]
      have := List.sum_le_card_nsmul (liked.map fun l => pairScore f l) 11
        (fun x hx => by
          rcases List.mem_map.mp hx with ⟨l, _, rfl⟩
          exact pairScore_le_eleven f l)
      simpa [nsmul_eq_mul, mul_comm] using this
    have hmax0 : 0 ≤ listMax (liked.map fun l => pairScore f l) := by
      apply listMax_nonneg
      intro x hx
      rcases List.mem_map.mp hx with ⟨l, _, rfl⟩
      exact pairScore_nonneg f l
    have havg0 : 0 ≤ (liked.map fun l => pairScore f l).sum / ((liked.map fun l => pairScore f l).length : ℚ) := by
      apply div_nonneg _ (le_of_lt hlenpos)
      apply List.sum_nonneg
      intro x hx
      rcases List.mem_map.mp hx with ⟨l, _, rfl⟩
      exact pairScore_nonneg f l
    nlinarith

theorem anyContains_comm (l₁ l₂ : List String) :
    (l₁.any fun d => l₂.contains d) = (l₂.any fun d => l₁.contains d) := by
  rw [Bool.eq_iff_iff]
  simp only [List.any_eq_true, List.contains, List.elem_iff]
  constructor
  · rintro ⟨x, h1, h2⟩
    exact ⟨x, h2, h1⟩
  · rintro ⟨x, h1, h2⟩
    exact ⟨x, h2, h1⟩

theorem pairScore_comm (a b : Film) : pairScore a b = pairScore b a := by
  unfold pairScore
  simp only
  rw [jaccardSimilarity_comm a.genres.toFinset b.genres.toFinset,
      jaccardSimilarity_comm a.castQIDs.toFinset b.castQIDs.toFinset,
      anyContains_comm a.directorQIDs b.directorQIDs,
      abs_sub_comm (((a.year.getD 0 : Int) : ℚ))]
  cases hA : jsTruthyInt a.year <;> cases hB : jsTruthyInt b.year <;> simp [hA, hB]

theorem anyContains_iff_inter_nonempty (l₁ l₂ : List String) :
    (l₁.any fun d => l₂.contains d) = true ↔ (l₁.toFinset ∩ l₂.toFinset).Nonempty := by
  simp only [List.any_eq_true, List.contains, List.elem_iff]
  constructor
  · rintro ⟨x, h1, h2⟩
    exact ⟨x, Finset.mem_inter.mpr ⟨List.mem_toFinset.mpr h1, List.mem_toFinset.mpr h2⟩⟩
  · rintro ⟨x, hx⟩
    rcases Finset.mem_inter.mp hx with ⟨h1, h2⟩
    exact ⟨x, List.mem_toFinset.mp h1, List.mem_toFinset.mp h2⟩

theorem pairScore_eq_specAmended (a b : Film) :
    pairScore a b = specPairScoreAmended a b := by
  unfold pairScore specPairScoreAmended
  simp only
  have hdir : (if (a.directorQIDs.any fun d => b.directorQIDs.contains d) then (1 : ℚ) else 0)
      = (if (a.directorQIDs.toFinset ∩ b.directorQIDs.toFinset).Nonempty then (1 : ℚ) else 0) :=
    if_congr (anyContains_iff_inter_nonempty a.directorQIDs b.directorQIDs) rfl rfl
  rw [hdir]
  cases ha : a.year with
  | none => simp [jsTruthyInt]; ring
  | some ya =>
    cases hb : b.year with
    | none => simp [jsTruthyInt]; ring
    | some yb =>
      by_cases hya : ya = 0
      · simp [jsTruthyInt, hya]
        ring
      · by_cases hyb : yb = 0
        · simp [jsTruthyInt, hya, hyb]
          ring
        · simp [jsTruthyInt, hya, hyb]
          ring

theorem scoreDescLE_trans (a b c : Film × ℚ) (h1 : scoreDescLE a b = true)
    (h2 : scoreDescLE b c = true) : scoreDescLE a c = true := by
  simp only [scoreDescLE, decide_eq_true_eq] at *
  exact le_trans h2 h1

theorem scoreDescLE_total (a b : Film × ℚ) : (scoreDescLE a b || scoreDescLE b a) = true := by
  simp only [scoreDescLE, Bool.or_eq_true, decide_eq_true_eq]
  exact le_total b.2 a.2

theorem listSwap_perm {α : Type} (l : List α) (i j : Nat) : (listSwap l i j).Perm l := by
  classical
  unfold listSwap
  split
  case isFalse => exact List.Perm.refl l
  case isTrue h =>
    rw [List.perm_iff_count]
    intro a
    have hj : j < (l.set i (l.get ⟨j, h.2⟩)).length := by simpa using h.2
    rw [List.count_set _ _ _ _ hj, List.count_set _ _ _ _ h.1]
    simp only [List.get_eq_getElem, List.getElem_set, ite_self]
    by_cases h1 : (l[i] == a) = true <;> by_cases h2 : (l[j] == a) = true
    · have hc : 0 < List.count a l := by
        rw [List.count_pos_iff]
        have : l[i] = a := by exact_mod_cast eq_of_beq h1
        exact this ▸ List.getElem_mem h.1
      simp only [h1, h2, if_true]
      omega
    · have hc : 0 < List.count a l := by
        rw [List.count_pos_iff]
        have : l[i] = a := by exact_mod_cast eq_of_beq h1
        exact this ▸ List.getElem_mem h.1
      simp only [h1, h2, if_true, if_false]
      omega
    · simp [h1, h2]
    · simp [h1, h2]

theorem fisherYatesAux_perm {α : Type} (rand : Nat → Nat) (n : Nat) (l : List α) :
    (fisherYatesAux rand n l).Perm l := by
  induction n generalizing l with
  | zero => exact List.Perm.refl l
  | succ i ih =>
    show (fisherYatesAux rand i (listSwap l (i + 1) (rand (i + 1) % (i + 2)))).Perm l
    exact (ih _).trans (listSwap_perm l (i + 1) (rand (i + 1) % (i + 2)))

theorem shuffleArray_perm {α : Type} (rand : Nat → Nat) (l : List α) :
    (shuffleArray rand l).Perm l :=
  fisherYatesAux_perm rand (l.length - 1) l

theorem mem_setAdd (s : List String) (x q : String) : q ∈ setAdd s x ↔ q ∈ s ∨ q = x := by
  unfold setAdd
  split
  case isTrue h =>
    constructor
    · exact Or.inl
    · rintro (hq | rfl)
      · exact hq
      · exact List.elem_iff.mp h
  case isFalse h =>
    simp [List.mem_append]

theorem mem_foldl_setAdd (l : List Film) (s : List String) (q : String) :
    q ∈ l.foldl (fun s f => setAdd s f.qid) s ↔ q ∈ s ∨ ∃ f ∈ l, f.qid = q := by
  induction l generalizing s with
  | nil => simp
  | cons x xs ih =>
    simp only [List.foldl_cons, ih (setAdd s x.qid), mem_setAdd, List.mem_cons]
    constructor
    · rintro ((hq | rfl) | ⟨f, hf, rfl⟩)
      · exact Or.inl hq
      · exact Or.inr ⟨x, Or.inl rfl, rfl⟩
      · exact Or.inr ⟨f, Or.inr hf, rfl⟩
    · rintro (hq | ⟨f, (rfl | hf), rfl⟩)
      · exact Or.inl (Or.inl hq)
      · exact Or.inl (Or.inr rfl)
      · exact Or.inr ⟨f, hf, rfl⟩

theorem length_setAdd (s : List String) (x : String) :
    (setAdd s x).length ≤ s.length + 1 := by
  unfold setAdd
  split
  · omega
  · simp

theorem length_foldl_setAdd (l : List Film) (s : List String) :
    (l.foldl (fun s f => setAdd s f.qid) s).length ≤ s.length + l.length := by
  induction l generalizing s with
  | nil => simp
  | cons x xs ih =>
    simp only [List.foldl_cons, List.length_cons]
    have h1 := ih (setAdd s x.qid)
    have h2 := length_setAdd s x.qid
    omega

theorem getStarterBatch_subset (u : List Film) : ∀ f ∈ getStarterBatch u, f ∈ u := by
  intro f hf
  unfold getStarterBatch at hf
  simp only at hf
  split at hf
  · exact List.mem_of_mem_filter hf
  · exact (List.mergeSort_perm u _).mem_iff.mp hf

theorem getStarterBatch_nodup (u : List Film) (h : u.Nodup) : (getStarterBatch u).Nodup := by
  unfold getStarterBatch
  simp only
  split
  · exact List.Nodup.filter _ h
  · exact (List.mergeSort_perm u _).nodup_iff.mpr h

theorem batchCandidates_subset (u : List Film) (st : BatchState) :
    ∀ f ∈ (batchCandidates u st).1, f ∈ u := by
  intro f hf
  unfold batchCandidates at hf
  simp only at hf
  split at hf
  · exact getStarterBatch_subset u f hf
  · split at hf
    · split at hf
      · exact hf
      · exact hf
    · split at hf
      · exact hf
      · exact List.mem_of_mem_filter hf

theorem batchCandidates_nodup (u : List Film) (st : BatchState) (h : u.Nodup) :
    (batchCandidates u st).1.Nodup := by
  unfold batchCandidates
  simp only
  split
  · exact getStarterBatch_nodup u h
  · split
    · split
      · exact h
      · exact h
    · split
      · exact h
      · exact List.Nodup.filter _ h

theorem loadNewBatch_batch_subset (films : List Film) (ratings : Ratings)
    (st : BatchState) (sizeRand : Nat) (shuffleRand : Nat → Nat) :
    ∀ f ∈ (loadNewBatch films ratings st sizeRand shuffleRand).batch,
      f ∈ films.filter (fun f => (lookupRating ratings f.qid).isNone) := by
  intro f hf
  unfold loadNewBatch at hf
  simp only at hf
  split at hf
  · simp at hf
  · have h1 : f ∈ shuffleArray shuffleRand
        (batchCandidates (films.filter fun f => (lookupRating ratings f.qid).isNone) st).1 :=
      List.mem_of_mem_take hf
    have h2 := (shuffleArray_perm shuffleRand _).mem_iff.mp h1
    exact batchCandidates_subset _ st f h2

theorem loadNewBatch_batch_nodup (films : List Film) (ratings : Ratings)
    (st : BatchState) (sizeRand : Nat) (shuffleRand : Nat → Nat)
    (h : films.Nodup) :
    (loadNewBatch films ratings st sizeRand shuffleRand).batch.Nodup := by
  unfold loadNewBatch
  simp only
  split
  · simp
  · apply List.Sublist.nodup (List.take_sublist _ _)
    apply ((shuffleArray_perm shuffleRand _).nodup_iff).mpr
    exact batchCandidates_nodup _ st (List.Nodup.filter _ h)

theorem lookupRating_mem (m : Ratings) (k : String) (v : Rating)
    (h : lookupRating m k = some v) : (k, v) ∈ m := by
  induction m with
  | nil => simp [lookupRating, List.lookup] at h
  | cons p ps ih =>
    rcases p with ⟨pk, pv⟩
    unfold lookupRating List.lookup at h
    split at h
    case h_1 heq =>
      have hk : k = pk := by exact_mod_cast eq_of_beq heq
      have hv : pv = v := by injection h
      subst hk
      subst hv
      exact List.mem_cons_self _ _
    case h_2 heq =>
      exact List.mem_cons_of_mem _ (ih h)

theorem isLikeJudgment_eq_false (ratings : Ratings)
    (h : ∀ p ∈ ratings, p.2.rating ≠ "like") (q : String) :
    isLikeJudgment (lookupRating ratings q) = false := by
  cases hl : lookupRating ratings q with
  | none => rfl
  | some r =>
    have hmem := lookupRating_mem ratings q r hl
    unfold isLikeJudgment
    simpa using h _ hmem

theorem any_map_upsert (m : Ratings) (qid : String) (r : Rating) :
    ((m.map fun p => if p.1 == qid then (qid, r) else p).any fun p => p.1 == qid)
      = (m.any fun p => p.1 == qid) := by
  induction m with
  | nil => rfl
  | cons p ps ih =>
    simp only [List.map_cons, List.any_cons, ih]
    by_cases hp : p.1 = qid
    · simp [hp]
    · simp [hp]

theorem map_upsert_of_not_any (m : Ratings) (qid : String) (r : Rating)
    (h : (m.any fun p => p.1 == qid) = false) :
    m.map (fun p => if p.1 == qid then (qid, r) else p) = m := by
  induction m with
  | nil => rfl
  | cons p ps ih =>
    simp only [List.any_cons, Bool.or_eq_false_iff] at h
    simp only [List.map_cons, h.1, if_false, ih h.2]
    simp [h.1]

theorem rateFilm_overwrite (m : Ratings) (qid : String)
    (v₁ n₁ : String) (g₁ : List String) (t₁ : String)
    (v₂ n₂ : String) (g₂ : List String) (t₂ : String) :
    rateFilm qid v₂ n₂ g₂ t₂ (rateFilm qid v₁ n₁ g₁ t₁ m)
      = rateFilm qid v₂ n₂ g₂ t₂ m := by
  unfold rateFilm
  simp only
  by_cases hA : (m.any fun p => p.1 == qid) = true
  · rw [if_pos hA, if_pos (by rw [any_map_upsert]; exact hA), if_pos hA, List.map_map]
    apply List.map_congr_left
    intro p _
    by_cases hp : p.1 = qid
    · simp [hp]
    · simp [hp]
  · have hA' : (m.any fun p => p.1 == qid) = false := by
      cases hB : (m.any fun p => p.1 == qid)
      · rfl
      · exact absurd hB hA
    rw [if_neg hA, if_neg hA]
    have hApp : ((m ++ [(qid, (⟨qid, v₁, n₁, g₁, t₁⟩ : Rating))]).any fun p => p.1 == qid) = true := by
      simp [List.any_append]
    rw [if_pos hApp, List.map_append, map_upsert_of_not_any m qid _ hA']
    simp

theorem lookup_cons_ne (k : String) (p : String × Rating) (l : List (String × Rating))
    (h : (k == p.1) = false) : List.lookup k (p :: l) = List.lookup k l := by
  rcases p with ⟨pk, pv⟩
  show (match k == pk with
        | true => some pv
        | false => List.lookup k l) = List.lookup k l
  rw [h]

theorem lookupRating_rateFilm (m : Ratings) (qid : String)
    (v n : String) (g : List String) (t : String) :
    lookupRating (rateFilm qid v n g t m) qid
      = some ⟨qid, v, n, g, t⟩ := by
  induction m with
  | nil => simp [rateFilm, lookupRating, List.lookup]
  | cons p ps ih =>
    by_cases hp : p.1 = qid
    · have hA : ((p :: ps).any fun p => p.1 == qid) = true := by
        simp [List.any_cons, hp]
      unfold rateFilm
      simp only [if_pos hA, List.map_cons]
      rw [if_pos (by simp [hp])]
      simp [lookupRating, List.lookup]
    · unfold rateFilm at ih ⊢
      have hpb : (p.1 == qid) = false := by
        simpa using hp
      have hq : (qid == p.1) = false := by
        simp
        exact fun hc => hp hc.symm
      simp only [List.any_cons, hpb, Bool.false_or]
      by_cases hA : (ps.any fun q => q.1 == qid) = true
      · rw [if_pos hA]
        rw [if_pos hA] at ih
        have hHead : (if (p.1 == qid) = true
            then (qid, (⟨qid, v, n, g, t⟩ : Rating)) else p) = p := by
          rw [hpb]
          simp
        simp only [List.map_cons, hHead]
        unfold lookupRating
        rw [lookup_cons_ne qid p _ hq]
        exact ih
      · rw [if_neg hA]
        rw [if_neg hA] at ih
        have hcons : (p :: ps) ++ [(qid, (⟨qid, v, n, g, t⟩ : Rating))]
            = p :: (ps ++ [(qid, (⟨qid, v, n, g, t⟩ : Rating))]) := rfl
        rw [hcons]
        unfold lookupRating
        rw [lookup_cons_ne qid p _ hq]
        exact ih

theorem rateFilm_keys_nodup (m : Ratings) (qid : String)
    (v n : String) (g : List String) (t : String)
    (h : (m.map Prod.fst).Nodup) :
    ((rateFilm qid v n g t m).map Prod.fst).Nodup := by
  unfold rateFilm
  simp only
  split
  case isTrue hA =>
    have hkeys : (m.map (fun p => if p.1 == qid then (qid, (⟨qid, v, n, g, t⟩ : Rating)) else p)).map Prod.fst
        = m.map Prod.fst := by
      rw [List.map_map]
      apply List.map_congr_left
      intro p _
      by_cases hp : p.1 = qid
      · simp [hp]
      · simp [hp]
    rw [hkeys]
    exact h
  case isFalse hA =>
    have hA' : (m.any fun p => p.1 == qid) = false := by
      cases hB : (m.any fun p => p.1 == qid)
      · rfl
      · exact absurd hB hA
    rw [List.map_append]
    rw [List.nodup_append]
    refine ⟨h, by simp, ?_⟩
    intro a ha hb
    simp only [List.map_cons, List.map_nil, List.mem_singleton] at hb
    subst hb
    rcases List.mem_map.mp ha with ⟨p, hp, hpk⟩
    rw [List.any_eq_false] at hA'
    exact hA' p hp (by simp [hpk])

theorem exportFold_eq (films : List Film) (rs : List Rating)
    (acc : List ExportEntry × List ExportEntry × List ExportEntry) :
    rs.foldl
      (fun acc r =>
        match films.find? (fun f => f.qid == r.qid) with
        | none => acc
        | some film =>
          let e := mkExportEntry film r
          if r.rating == "like" then (acc.1 ++ [e], acc.2.1, acc.2.2)
          else if r.rating == "dislike" then (acc.1, acc.2.1 ++ [e], acc.2.2)
          else (acc.1, acc.2.1, acc.2.2 ++ [e]))
      acc
    = (acc.1 ++ exportEntriesFor films keepLike rs,
       acc.2.1 ++ exportEntriesFor films keepDislike rs,
       acc.2.2 ++ exportEntriesFor films keepNeutral rs) := by
  induction rs generalizing acc with
  | nil => simp [exportEntriesFor]
  | cons r rs ih =>
    simp only [List.foldl_cons]
    cases hf : films.find? (fun f => f.qid == r.qid) with
    | none =>
      rw [ih]
      simp [exportEntriesFor, List.filterMap_cons, hf]
    | some film =>
      by_cases hL : r.rating = "like"
      · simp only [hf]
        rw [ih]
        simp [exportEntriesFor, List.filterMap_cons, hf, hL, keepLike, keepDislike, keepNeutral]
      · by_cases hD : r.rating = "dislike"
        · simp only [hf]
          rw [ih]
          simp [exportEntriesFor, List.filterMap_cons, hf, hL, hD, keepLike, keepDislike,
            keepNeutral]
        · simp only [hf]
          rw [ih]
          simp [exportEntriesFor, List.filterMap_cons, hf, hL, hD, keepLike, keepDislike,
            keepNeutral]

theorem buildExportData_eq (films : List Film) (ratings : Ratings) :
    buildExportData films ratings
      = (exportEntriesFor films keepLike (ratings.map Prod.snd),
         exportEntriesFor films keepDislike (ratings.map Prod.snd),
         exportEntriesFor films keepNeutral (ratings.map Prod.snd)) := by
  unfold buildExportData
  rw [exportFold_eq]
  simp

theorem exportEntriesFor_timestamp (films : List Film) (keep : String → Bool)
    (g : String → String) (rs : List Rating) :
    exportEntriesFor films keep (rs.map fun r => { r with timestamp := g r.timestamp })
      = exportEntriesFor films keep rs := by
  unfold exportEntriesFor
  rw [List.filterMap_map]
  rfl

theorem yearFilterKeep_all (cy : Int) (f : Film) : yearFilterKeep "all" cy f = true := rfl

theorem runtimeFilterKeep_all (f : Film) : runtimeFilterKeep "all" f = true := rfl

/-! ### Claim theorems -/

/-- C1, counterexample: for items the spec admits (year is an integer
or absent), the code's per-pair score differs from the spec's formula.
With candidate year 0 and reference year 50 the spec's year term is
`max(0, 1 - 50/100) = 1/2`, but the source's truthiness test
`if (film.year && liked.year)` treats year 0 as absent, so the code
scores the pair 0. -/
theorem c1_counterexample :
    pairScore filmYearZero filmYearFifty ≠ specPairScore filmYearZero filmYearFifty ∧
    pairScore filmYearZero filmYearFifty = 0 ∧
    specPairScore filmYearZero filmYearFifty = 1 / 2 := by
  refine ⟨by with_unfolding_all decide, by with_unfolding_all decide,
    by with_unfolding_all decide⟩

/-- C1 (amended): for every candidate and liked reference item, the
per-pair similarity score equals
`5·jaccard(genres) + 3·[creator sets intersect] + 2·jaccard(cast) +
1·max(0, 1 - |Δyear|/100)`, where the year term contributes 0 when
either year is absent *or stored as the integer 0* (the code tests the
year fields for JS truthiness); and for a non-empty liked set the
candidate's aggregate equals `(0.7·max + 0.3·mean)` of the per-pair
scores divided by 11. -/
theorem c1_similarity_formula (film l : Film) (liked : List Film) (h : liked ≠ []) :
    pairScore film l = specPairScoreAmended film l ∧
    calculateSimilarity film liked =
      ((7 / 10) * listMax (liked.map fun x => specPairScoreAmended film x)
        + (3 / 10) * ((liked.map fun x => specPairScoreAmended film x).sum
            / (((liked.map fun x => specPairScoreAmended film x).length : ℚ)))) / 11 := by
  constructor
  · exact pairScore_eq_specAmended film l
  · unfold calculateSimilarity
    rw [if_neg (by simpa [List.isEmpty_iff] using h)]
    simp only
    have hmap : (liked.map fun x => pairScore film x)
        = liked.map fun x => specPairScoreAmended film x :=
      List.map_congr_left (fun x _ => pairScore_eq_specAmended film x)
    rw [hmap, foldl_add_eq_sum, zero_add]
    ring

/-- C1 witness: the amended formula instantiated on the concrete
catalog of the spec's scenario 1. -/
theorem c1_similarity_formula_witness :
    pairScore filmB filmA = specPairScoreAmended filmB filmA ∧
    calculateSimilarity filmB [filmA] =
      ((7 / 10) * listMax ([filmA].map fun x => specPairScoreAmended filmB x)
        + (3 / 10) * (([filmA].map fun x => specPairScoreAmended filmB x).sum
            / ((([filmA].map fun x => specPairScoreAmended filmB x).length : ℚ)))) / 11 :=
  c1_similarity_formula filmB filmA [filmA] (by decide)

/-- C8: the per-pair similarity score is symmetric, and the Jaccard
sub-score used for the genre and cast terms is symmetric. -/
theorem c8_similarity_symmetric (a b : Film) (s t : Finset String) :
    pairScore a b = pairScore b a ∧ jaccardSimilarity s t = jaccardSimilarity t s :=
  ⟨pairScore_comm a b, jaccardSimilarity_comm s t⟩

/-- C2: with at least one liked catalog item (and the year/runtime
filter state at its default `"all"`, the configuration the spec
covers), the recommendation generator returns a stable descending sort
of the scored unjudged candidates, truncated to at most 20 entries.
The list `sorted` is characterized as THE stable sort: a permutation of
the scored candidates, sorted by score descending, containing every
score-sorted sublist of the input in input order (so equal-score ties
keep stable input order), and the output is its 20-element prefix. -/
theorem c2_recommendations_sorted (films : List Film) (ratings : Ratings) (currentYear : Int)
    (h : films.filter (fun f => isLikeJudgment (lookupRating ratings f.qid)) ≠ []) :
    ∃ sorted : List (Film × ℚ),
      sorted.Perm ((films.filter fun f => (lookupRating ratings f.qid).isNone).map
        (fun f => (f, calculateSimilarity f
          (films.filter fun f => isLikeJudgment (lookupRating ratings f.qid))))) ∧
      sorted.Pairwise (fun a b => b.2 ≤ a.2) ∧
      (∀ c : List (Film × ℚ),
        c.Sublist ((films.filter fun f => (lookupRating ratings f.qid).isNone).map
          (fun f => (f, calculateSimilarity f
            (films.filter fun f => isLikeJudgment (lookupRating ratings f.qid))))) →
        c.Pairwise (fun a b => b.2 ≤ a.2) → c.Sublist sorted) ∧
      generateRecommendations films ratings "all" "all" currentYear = sorted.take 20 ∧
      (generateRecommendations films ratings "all" "all" currentYear).length ≤ 20 := by
  have hout : generateRecommendations films ratings "all" "all" currentYear
      = (((films.filter fun f => (lookupRating ratings f.qid).isNone).map
          (fun f => (f, calculateSimilarity f
            (films.filter fun f => isLikeJudgment (lookupRating ratings f.qid))))).mergeSort
              scoreDescLE).take 20 := by
    unfold generateRecommendations
    rw [if_neg (fun hc => h (List.isEmpty_iff.mp hc))]
    simp only
    rw [List.filter_congr (fun x _ => yearFilterKeep_all currentYear x), List.filter_true,
      List.filter_congr (fun x _ => runtimeFilterKeep_all x), List.filter_true]
  refine ⟨((films.filter fun f => (lookupRating ratings f.qid).isNone).map
    (fun f => (f, calculateSimilarity f
      (films.filter fun f => isLikeJudgment (lookupRating ratings f.qid))))).mergeSort
        scoreDescLE, ?_, ?_, ?_, hout, ?_⟩
  · exact List.mergeSort_perm _ scoreDescLE
  · exact (List.sorted_mergeSort scoreDescLE_trans scoreDescLE_total _).imp
      (fun hab => by simpa [scoreDescLE] using hab)
  · intro c hsub hpw
    exact List.sublist_mergeSort scoreDescLE_trans scoreDescLE_total
      (hpw.imp (fun hab => by simpa [scoreDescLE] using hab)) hsub
  · rw [hout]
    exact List.length_take_le _ _

/-- C2 witness: the stable-sort characterization instantiated on the
spec's scenario-1 catalog with film A liked. -/
theorem c2_recommendations_sorted_witness :
    ∃ sorted : List (Film × ℚ),
      sorted.Perm (([filmA, filmB, filmC].filter
          fun f => (lookupRating [("A", likeA)] f.qid).isNone).map
        (fun f => (f, calculateSimilarity f
          ([filmA, filmB, filmC].filter
            fun f => isLikeJudgment (lookupRating [("A", likeA)] f.qid))))) ∧
      sorted.Pairwise (fun a b => b.2 ≤ a.2) ∧
      (∀ c : List (Film × ℚ),
        c.Sublist (([filmA, filmB, filmC].filter
            fun f => (lookupRating [("A", likeA)] f.qid).isNone).map
          (fun f => (f, calculateSimilarity f
            ([filmA, filmB, filmC].filter
              fun f => isLikeJudgment (lookupRating [("A", likeA)] f.qid))))) →
        c.Pairwise (fun a b => b.2 ≤ a.2) → c.Sublist sorted) ∧
      generateRecommendations [filmA, filmB, filmC] [("A", likeA)] "all" "all" 2025
        = sorted.take 20 ∧
      (generateRecommendations [filmA, filmB, filmC] [("A", likeA)] "all" "all" 2025).length
        ≤ 20 :=
  c2_recommendations_sorted [filmA, filmB, filmC] [("A", likeA)] 2025 (by decide)

/-- C3: the raw per-pair similarity score lies in `[0, 11]` for every
pair of items, and every entry of the recommendation generator's output
carries a normalized aggregate score in `[0, 1]` (for any filter
state). -/
theorem c3_score_bounds (a b : Film) (films : List Film) (ratings : Ratings)
    (yf rf : String) (cy : Int) (p : Film × ℚ)
    (hp : p ∈ generateRecommendations films ratings yf rf cy) :
    (0 ≤ pairScore a b ∧ pairScore a b ≤ 11) ∧ (0 ≤ p.2 ∧ p.2 ≤ 1) := by
  refine ⟨⟨pairScore_nonneg a b, pairScore_le_eleven a b⟩, ?_⟩
  unfold generateRecommendations at hp
  by_cases hL : (films.filter fun f => isLikeJudgment (lookupRating ratings f.qid)).isEmpty = true
  · rw [if_pos hL] at hp
    simp at hp
  · rw [if_neg hL] at hp
    simp only at hp
    have h1 := List.mem_of_mem_take hp
    have h2 := (List.mergeSort_perm _ scoreDescLE).mem_iff.mp h1
    rcases List.mem_map.mp h2 with ⟨f, _, rfl⟩
    exact ⟨calculateSimilarity_nonneg _ _, calculateSimilarity_le_one _ _⟩

/-- C3 witness: concrete bounds on the scenario-1 catalog; the
recommendation entry `(B, 349/1100)` is in the generator's output. -/
theorem c3_score_bounds_witness :
    (0 ≤ pairScore filmA filmB ∧ pairScore filmA filmB ≤ 11) ∧
    (0 ≤ (filmB, (349 : ℚ) / 1100).2 ∧ (filmB, (349 : ℚ) / 1100).2 ≤ 1) :=
  c3_score_bounds filmA filmB [filmA, filmB, filmC] [("A", likeA)] "all" "all" 2025
    (filmB, (349 : ℚ) / 1100) (by with_unfolding_all decide)

/-- C4: when no judgment in the store is a like (dislikes and neutrals
may be present), the recommendation generator returns the empty list. -/
theorem c4_no_likes_empty (films : List Film) (ratings : Ratings) (yf rf : String) (cy : Int)
    (h : ∀ p ∈ ratings, p.2.rating ≠ "like") :
    generateRecommendations films ratings yf rf cy = [] := by
  unfold generateRecommendations
  have hfilter : (films.filter fun f => isLikeJudgment (lookupRating ratings f.qid)) = [] := by
    apply List.filter_eq_nil_iff.mpr
    intro f _
    rw [isLikeJudgment_eq_false ratings h f.qid]
    simp
  simp [hfilter]

/-- C4 witness: a store holding one dislike and one stale neutral but
no like yields no recommendations. -/
theorem c4_no_likes_empty_witness :
    generateRecommendations [filmA, filmB] [("A", dislikeA), ("Zmissing", neutralZ)]
      "all" "all" 2025 = [] :=
  c4_no_likes_empty [filmA, filmB] [("A", dislikeA), ("Zmissing", neutralZ)]
    "all" "all" 2025 (by decide)

/-- C5: an item with a recorded judgment never appears in the
recommendation generator's output nor in a batch newly produced by the
sampler. -/
theorem c5_judged_item_excluded (films : List Film) (ratings : Ratings) (qid : String)
    (r : Rating) (yf rf : String) (cy : Int) (st : BatchState)
    (s1 : Nat) (s2 : Nat → Nat) (p : Film × ℚ) (f : Film)
    (h : lookupRating ratings qid = some r)
    (hp : p ∈ generateRecommendations films ratings yf rf cy)
    (hf : f ∈ (loadNewBatch films ratings st s1 s2).batch) :
    p.1.qid ≠ qid ∧ f.qid ≠ qid := by
  constructor
  · unfold generateRecommendations at hp
    by_cases hL :
        (films.filter fun f => isLikeJudgment (lookupRating ratings f.qid)).isEmpty = true
    · rw [if_pos hL] at hp
      simp at hp
    · rw [if_neg hL] at hp
      simp only at hp
      have h1 := List.mem_of_mem_take hp
      have h2 := (List.mergeSort_perm _ scoreDescLE).mem_iff.mp h1
      rcases List.mem_map.mp h2 with ⟨g, hg, rfl⟩
      have hg1 := List.mem_of_mem_filter hg
      have hg2 := List.mem_of_mem_filter hg1
      have hnone := (List.mem_filter.mp hg2).2
      intro hq
      have hq' : g.qid = qid := hq
      rw [hq', h] at hnone
      simp at hnone
  · have hmem := loadNewBatch_batch_subset films ratings st s1 s2 f hf
    have hnone := (List.mem_filter.mp hmem).2
    intro hq
    rw [hq, h] at hnone
    simp at hnone

/-- C5 witness: with film A judged (liked), A is absent from both the
concrete recommendation output (which contains `(B, 349/1100)`) and a
concretely sampled batch containing B. -/
theorem c5_judged_item_excluded_witness :
    (filmB, (349 : ℚ) / 1100).1.qid ≠ "A" ∧ filmB.qid ≠ "A" :=
  c5_judged_item_excluded [filmA, filmB] [("A", likeA)] "A" likeA "all" "all" 2025
    stateBatchOne 0 (fun _ => 0) (filmB, (349 : ℚ) / 1100) filmB
    (by decide)
    (by with_unfolding_all decide)
    (by with_unfolding_all decide)

/-- C6: recording a judgment twice in a row on the same item leaves the
store exactly as recording it once (the stored record, timestamp
included, is that of the final call); any record on an already-judged
item fully overwrites the prior judgment, and the at-most-one-judgment-
per-item invariant is preserved. -/
theorem c6_judgment_upsert (m : Ratings) (qid : String)
    (v₁ n₁ : String) (g₁ : List String) (t₁ : String)
    (v₂ n₂ : String) (g₂ : List String) (t₂ : String)
    (hnd : (m.map Prod.fst).Nodup) :
    rateFilm qid v₂ n₂ g₂ t₂ (rateFilm qid v₁ n₁ g₁ t₁ m) = rateFilm qid v₂ n₂ g₂ t₂ m ∧
    lookupRating (rateFilm qid v₁ n₁ g₁ t₁ m) qid = some ⟨qid, v₁, n₁, g₁, t₁⟩ ∧
    ((rateFilm qid v₁ n₁ g₁ t₁ m).map Prod.fst).Nodup :=
  ⟨rateFilm_overwrite m qid v₁ n₁ g₁ t₁ v₂ n₂ g₂ t₂,
   lookupRating_rateFilm m qid v₁ n₁ g₁ t₁,
   rateFilm_keys_nodup m qid v₁ n₁ g₁ t₁ hnd⟩

/-- C6 witness: re-recording a like on item B over a store already
holding a judgment for A. -/
theorem c6_judgment_upsert_witness :
    rateFilm "B" "like" "nice" ["cozy"] "t9" (rateFilm "B" "like" "nice" ["cozy"] "t9" [("A", likeA)])
      = rateFilm "B" "like" "nice" ["cozy"] "t9" [("A", likeA)] ∧
    lookupRating (rateFilm "B" "like" "nice" ["cozy"] "t9" [("A", likeA)]) "B"
      = some ⟨"B", "like", "nice", ["cozy"], "t9"⟩ ∧
    ((rateFilm "B" "like" "nice" ["cozy"] "t9" [("A", likeA)]).map Prod.fst).Nodup :=
  c6_judgment_upsert [("A", likeA)] "B" "like" "nice" ["cozy"] "t9"
    "like" "nice" ["cozy"] "t9" (by decide)

/-- C7: on a non-first batch, when fewer than 20 unjudged films remain
outside the recently-shown set while at least 20 are unjudged in total,
the sampler resets: the produced batch is non-empty, drawn from the
unjudged pool, and the new recently-shown set holds exactly the ids of
that batch (the old contents were cleared). -/
theorem c7_recently_shown_reset (films : List Film) (ratings : Ratings) (st : BatchState)
    (s1 : Nat) (s2 : Nat → Nat)
    (hb : st.batchNumber ≠ 0)
    (hlt : ((films.filter fun f => (lookupRating ratings f.qid).isNone).filter
      (fun f => !(st.recentlyShown.contains f.qid))).length < 20)
    (hge : 20 ≤ (films.filter fun f => (lookupRating ratings f.qid).isNone).length) :
    (loadNewBatch films ratings st s1 s2).batch ≠ [] ∧
    (∀ f ∈ (loadNewBatch films ratings st s1 s2).batch,
      f ∈ films.filter fun f => (lookupRating ratings f.qid).isNone) ∧
    (∀ q, q ∈ (loadNewBatch films ratings st s1 s2).state.recentlyShown ↔
      q ∈ (loadNewBatch films ratings st s1 s2).batch.map (fun f => f.qid)) := by
  have hne : ¬((films.filter fun f => (lookupRating ratings f.qid).isNone).isEmpty = true) := by
    intro hc
    rw [List.isEmpty_iff] at hc
    rw [hc] at hge
    simp at hge
  have hfalse : (films.filter fun f => (lookupRating ratings f.qid).isNone).isEmpty = false := by
    cases hB : (films.filter fun f => (lookupRating ratings f.qid).isNone).isEmpty
    · rfl
    · exact absurd hB hne
  have hcand : batchCandidates (films.filter fun f => (lookupRating ratings f.qid).isNone) st
      = ((films.filter fun f => (lookupRating ratings f.qid).isNone), []) := by
    unfold batchCandidates
    rw [if_neg hb]
    simp only
    rw [if_pos (And.intro hlt hge)]
    simp [hfalse]
  have hbatchlen :
      ((shuffleArray s2 (films.filter fun f => (lookupRating ratings f.qid).isNone)).take
        (min (s1 % 6 + 15)
          (films.filter fun f => (lookupRating ratings f.qid).isNone).length)).length
        = min (s1 % 6 + 15) (films.filter fun f => (lookupRating ratings f.qid).isNone).length := by
    rw [List.length_take,
      (shuffleArray_perm s2 (films.filter fun f => (lookupRating ratings f.qid).isNone)).length_eq]
    have h15 : s1 % 6 + 15 ≤ (films.filter fun f => (lookupRating ratings f.qid).isNone).length := by
      have := Nat.mod_lt s1 (y := 6) (by norm_num)
      omega
    omega
  have hlen : ¬((((shuffleArray s2 (films.filter fun f => (lookupRating ratings f.qid).isNone)).take
      (min (s1 % 6 + 15) (films.filter fun f => (lookupRating ratings f.qid).isNone).length)).foldl
        (fun s f => setAdd s f.qid) ([] : List String)).length > 100) := by
    have hle := length_foldl_setAdd
      ((shuffleArray s2 (films.filter fun f => (lookupRating ratings f.qid).isNone)).take
        (min (s1 % 6 + 15) (films.filter fun f => (lookupRating ratings f.qid).isNone).length)) []
    rw [hbatchlen] at hle
    simp only [List.length_nil, Nat.zero_add] at hle
    have hmin : min (s1 % 6 + 15) (films.filter fun f => (lookupRating ratings f.qid).isNone).length
        ≤ s1 % 6 + 15 := Nat.min_le_left _ _
    have := Nat.mod_lt s1 (y := 6) (by norm_num)
    omega
  have hres : loadNewBatch films ratings st s1 s2 =
      ⟨(shuffleArray s2 (films.filter fun f => (lookupRating ratings f.qid).isNone)).take
        (min (s1 % 6 + 15) (films.filter fun f => (lookupRating ratings f.qid).isNone).length),
       st.batchNumber + 1,
       ((shuffleArray s2 (films.filter fun f => (lookupRating ratings f.qid).isNone)).take
        (min (s1 % 6 + 15) (films.filter fun f => (lookupRating ratings f.qid).isNone).length)).foldl
          (fun s f => setAdd s f.qid) []⟩ := by
    unfold loadNewBatch
    rw [if_neg hne]
    simp only [hcand]
    rw [if_neg hlen]
  have hresb : (loadNewBatch films ratings st s1 s2).batch
      = (shuffleArray s2 (films.filter fun f => (lookupRating ratings f.qid).isNone)).take
        (min (s1 % 6 + 15) (films.filter fun f => (lookupRating ratings f.qid).isNone).length) := by
    rw [hres]
  have hress : (loadNewBatch films ratings st s1 s2).state.recentlyShown
      = ((shuffleArray s2 (films.filter fun f => (lookupRating ratings f.qid).isNone)).take
        (min (s1 % 6 + 15) (films.filter fun f => (lookupRating ratings f.qid).isNone).length)).foldl
          (fun s f => setAdd s f.qid) [] := by
    rw [hres]
  refine ⟨?_, fun f hf => loadNewBatch_batch_subset films ratings st s1 s2 f hf, ?_⟩
  · intro hc
    have hzero := congrArg List.length hc
    rw [hresb, hbatchlen] at hzero
    simp only [List.length_nil] at hzero
    have := Nat.mod_lt s1 (y := 6) (by norm_num)
    omega
  · intro q
    rw [hress, hresb, mem_foldl_setAdd]
    simp only [List.not_mem_nil, false_or, List.mem_map]

/-- C7 witness: a 20-film fully-unjudged catalog whose ids have all
been recently shown; the reset rule fires and the next batch is
non-empty. -/
theorem c7_recently_shown_reset_witness :
    (loadNewBatch films20 [] stateAllShown 0 (fun _ => 0)).batch ≠ [] ∧
    (∀ f ∈ (loadNewBatch films20 [] stateAllShown 0 (fun _ => 0)).batch,
      f ∈ films20.filter fun f => (lookupRating [] f.qid).isNone) ∧
    (∀ q, q ∈ (loadNewBatch films20 [] stateAllShown 0 (fun _ => 0)).state.recentlyShown ↔
      q ∈ (loadNewBatch films20 [] stateAllShown 0 (fun _ => 0)).batch.map (fun f => f.qid)) :=
  c7_recently_shown_reset films20 [] stateAllShown 0 (fun _ => 0)
    (by decide) (by decide) (by decide)

/-- C9: the export projection ignores the stored `recordedAt`
timestamps entirely (rewriting every timestamp leaves it unchanged),
and it equals the spec-side grouping: the liked/disliked/neutral lists
are the store's judgments, in store order, filtered by verdict,
silently skipping any judgment whose item id matches no catalog film,
each projected to `{title, year, externalId, verdict, note, tags}`. -/
theorem c9_export_projection (films : List Film) (ratings : Ratings) (g : String → String) :
    buildExportData films (mapTimestamps g ratings) = buildExportData films ratings ∧
    buildExportData films ratings
      = (exportEntriesFor films keepLike (ratings.map Prod.snd),
         exportEntriesFor films keepDislike (ratings.map Prod.snd),
         exportEntriesFor films keepNeutral (ratings.map Prod.snd)) := by
  constructor
  · rw [buildExportData_eq, buildExportData_eq]
    have hmap : (mapTimestamps g ratings).map Prod.snd
        = (ratings.map Prod.snd).map (fun r => { r with timestamp := g r.timestamp }) := by
      unfold mapTimestamps
      rw [List.map_map, List.map_map]
      rfl
    rw [hmap, exportEntriesFor_timestamp, exportEntriesFor_timestamp,
      exportEntriesFor_timestamp]
  · exact buildExportData_eq films ratings

/-- C10: `shuffleArray` returns a permutation of its input for every
randomness source (the source array is copied, the embedding is pure),
and every newly sampled batch is drawn from the unjudged candidate pool
and, for a duplicate-free catalog, contains no duplicates. -/
theorem c10_shuffle_permutation {α : Type} (rand : Nat → Nat) (l : List α)
    (films : List Film) (ratings : Ratings) (st : BatchState) (s1 : Nat) (s2 : Nat → Nat)
    (hnd : films.Nodup) :
    (shuffleArray rand l).Perm l ∧
    (∀ f ∈ (loadNewBatch films ratings st s1 s2).batch,
      f ∈ films.filter fun f => (lookupRating ratings f.qid).isNone) ∧
    (loadNewBatch films ratings st s1 s2).batch.Nodup :=
  ⟨shuffleArray_perm rand l,
   fun f hf => loadNewBatch_batch_subset films ratings st s1 s2 f hf,
   loadNewBatch_batch_nodup films ratings st s1 s2 hnd⟩

/-- C10 witness: a concrete shuffle is a permutation and a concretely
sampled batch is duplicate-free and drawn from the pool. -/
theorem c10_shuffle_permutation_witness :
    (shuffleArray (fun _ => 0) ([1, 2, 3] : List Nat)).Perm [1, 2, 3] ∧
    (∀ f ∈ (loadNewBatch [filmA, filmB] [("A", likeA)] stateBatchOne 0 (fun _ => 0)).batch,
      f ∈ [filmA, filmB].filter fun f => (lookupRating [("A", likeA)] f.qid).isNone) ∧
    (loadNewBatch [filmA, filmB] [("A", likeA)] stateBatchOne 0 (fun _ => 0)).batch.Nodup :=
  c10_shuffle_permutation (fun _ => 0) ([1, 2, 3] : List Nat) [filmA, filmB]
    [("A", likeA)] stateBatchOne 0 (fun _ => 0) (by decide)

end ShowSuggester
